import Mathlib

/-
Shallow embedding of the DealSpot voucher lifecycle: the storage layer
(DatabaseStorage in server/storage.ts), the Express route handlers for
voucher verification and redemption, and the business-scanner auto-redeem
flow that drives them (the client component with sendRedemptionNotification
and processBusinessPayment).

Modelling conventions:
- timestamps are epoch milliseconds, modelled as Nat;
- SQL decimal columns (prices, payment amounts) are modelled by their
  numeric value as Rat; the JavaScript parseFloat/toString round trip on
  such a value is the identity on the numeric value and is modelled away;
- the relational store is a record of lists of rows; an SQL UPDATE is a
  map over the rows, an INSERT is an append, a single-row SELECT is find?;
- randomUUID() and Math.random() results are passed in as parameters;
- foreign-key enforcement by the database is not modelled; the claims
  below never exercise a foreign-key violation.
-/

namespace DealSpot

/-- A stored voucher row, table vouchers in the schema (part_000).
The status column defaults to "active"; usedAt is nullable. -/
structure Voucher where
  id : String
  userId : String
  dealId : String
  code : String
  status : String
  purchasedAt : Nat
  usedAt : Option Nat
  expiresAt : Nat
deriving Repr, DecidableEq

/-- A stored deal row (the columns the voucher flow reads). -/
structure Deal where
  id : String
  businessId : String
  title : String
  descr : String
  originalPrice : Rat
  discountedPrice : Rat
  discountPercentage : Int
deriving Repr, DecidableEq

/-- A stored business row (the columns the voucher flow reads). -/
structure Business where
  id : String
  name : String
  address : String
  city : String
deriving Repr, DecidableEq

/-- A stored user row (the columns the voucher flow reads). -/
structure User where
  id : String
  email : String
deriving Repr, DecidableEq

/-- A stored notification row. -/
structure Notification where
  id : String
  userId : String
  title : String
  message : String
  type : String
  read : Bool
deriving Repr, DecidableEq

/-- A stored business_payments row. -/
structure BusinessPayment where
  id : String
  businessId : String
  voucherId : String
  amount : Rat
  descr : String
  stripeTransferId : Option String
  status : String
  createdAt : Nat
deriving Repr, DecidableEq

/-- The relational store: one list of rows per table used by the flow. -/
structure DB where
  vouchers : List Voucher
  deals : List Deal
  businesses : List Business
  users : List User
  notifications : List Notification
  payments : List BusinessPayment
deriving Repr, DecidableEq

/-- Insert payload for createVoucher. insertVoucherSchema omits only id and
purchasedAt, so status and usedAt may be supplied by the caller (none means
the field is absent and the column default applies: status "active",
usedAt NULL). createVoucher itself replaces expiresAt by a default when
absent, hence Option there as well. -/
structure InsertVoucher where
  userId : String
  dealId : String
  code : String
  status : Option String
  usedAt : Option Nat
  expiresAt : Option Nat
deriving Repr, DecidableEq

/-- Math.random().toString(36).substr(2, 6).toUpperCase(): rand36 stands
for the base-36 rendering of the random float (for instance "0.k3j2l5");
substr(2, 6) drops the leading "0." and keeps at most six characters
(JavaScript substr clips at the end of the string); toUpperCase upcases
each character. -/
def randomSuffix (rand36 : String) : String :=
  ⟨((rand36.toList.drop 2).take 6).map Char.toUpper⟩

/-- The generated voucher code: DS-<epoch-ms>-<random suffix>. -/
def voucherCode (nowMs : Nat) (rand36 : String) : String :=
  "DS-" ++ toString nowMs ++ "-" ++ randomSuffix rand36

/-- 30 days in milliseconds, the default expiry horizon in createVoucher. -/
def thirtyDaysMs : Nat := 30 * 24 * 60 * 60 * 1000

/-- DatabaseStorage.createVoucher (storage.ts:310-322): inserts
a new voucher row. The spread of the caller payload is overridden by a
freshly generated id and code, and expiresAt falls back to now + 30 days
when the payload has none; status and usedAt come from the payload when
supplied, else the column defaults apply ("active", NULL); purchasedAt
takes its column default now(). Returns the inserted row. -/
def createVoucher (db : DB) (voucher : InsertVoucher) (freshId : String)
    (nowMs : Nat) (rand36 : String) : DB × Voucher :=
  let code := voucherCode nowMs rand36
  let newVoucher : Voucher :=
    { id := freshId
      userId := voucher.userId
      dealId := voucher.dealId
      code := code
      status := voucher.status.getD "active"
      purchasedAt := nowMs
      usedAt := voucher.usedAt
      expiresAt := voucher.expiresAt.getD (nowMs + thirtyDaysMs) }
  ({ db with vouchers := db.vouchers ++ [newVoucher] }, newVoucher)

/-- The row transformation of the UPDATE in useVoucher: a row is rewritten
exactly when it matches the WHERE clause (id = voucherId AND
status = 'active'). -/
def markUsed (voucherId : String) (nowMs : Nat) (v : Voucher) : Voucher :=
  if v.id = voucherId ∧ v.status = "active"
  then { v with status := "used", usedAt := some nowMs } else v

/-- The WHERE clause of useVoucher as a Boolean row predicate. -/
def isActiveWithId (voucherId : String) (v : Voucher) : Bool :=
  v.id == voucherId && v.status == "active"

/-- DatabaseStorage.useVoucher (storage.ts:324-331): the conditional
UPDATE setting status to "used" and usedAt to now on rows with the given
id that are still "active", RETURNING the affected rows; the Boolean is
result.length > 0. -/
def useVoucher (db : DB) (voucherId : String) (nowMs : Nat) : DB × Bool :=
  ({ db with vouchers := db.vouchers.map (markUsed voucherId nowMs) },
   db.vouchers.any (isActiveWithId voucherId))

/-- The deal columns selected into the verification view. -/
structure DealView where
  id : String
  title : String
  descr : String
  originalPrice : Rat
  discountedPrice : Rat
  discountPercentage : Int
deriving Repr, DecidableEq

/-- The business columns selected into the verification view. -/
structure BusinessView where
  id : String
  name : String
  address : String
  city : String
deriving Repr, DecidableEq

/-- The user columns selected into the verification view. -/
structure UserView where
  id : String
  email : String
deriving Repr, DecidableEq

/-- The joined row returned by verifyVoucherByCode: the voucher columns
plus the LEFT JOINed deal, business (joined through the deal) and user;
a missed join leaves the nested object null, hence Option. -/
structure VoucherView where
  id : String
  code : String
  status : String
  purchasedAt : Nat
  usedAt : Option Nat
  expiresAt : Nat
  deal : Option DealView
  business : Option BusinessView
  user : Option UserView
deriving Repr, DecidableEq

/-- Builds the verification view of one voucher row over a database:
LEFT JOIN deals on vouchers.dealId, businesses on deals.businessId,
users on vouchers.userId. -/
def voucherView (db : DB) (v : Voucher) : VoucherView :=
  let dealRow := db.deals.find? (fun d => d.id == v.dealId)
  let businessRow := dealRow.bind (fun d => db.businesses.find? (fun b => b.id == d.businessId))
  let userRow := db.users.find? (fun u => u.id == v.userId)
  { id := v.id
    code := v.code
    status := v.status
    purchasedAt := v.purchasedAt
    usedAt := v.usedAt
    expiresAt := v.expiresAt
    deal := dealRow.map (fun d =>
      ⟨d.id, d.title, d.descr, d.originalPrice, d.discountedPrice, d.discountPercentage⟩)
    business := businessRow.map (fun b => ⟨b.id, b.name, b.address, b.city⟩)
    user := userRow.map (fun u => ⟨u.id, u.email⟩) }

/-- DatabaseStorage.verifyVoucherByCode (storage.ts:333-368): SELECT the
first voucher row whose code matches exactly, joined as voucherView;
read-only. -/
def verifyVoucherByCode (db : DB) (code : String) : Option VoucherView :=
  (db.vouchers.find? (fun v => v.code == code)).map (voucherView db)

/-- The response of POST /api/business/vouchers/verify. The classified
constructor carries the 200 body: the valid flag, the joined voucher and
the message string. -/
inductive VerifyResponse where
  | missingCode
  | notFound
  | classified (valid : Bool) (voucher : VoucherView) (message : String)
deriving Repr, DecidableEq

/-- POST /api/business/vouchers/verify (storage.ts:924-978): 400 when the
code field is falsy (missing or empty), 404 when no voucher matches, then
the first matching branch of: expired (expiresAt strictly before now),
already used, not active, valid. Returns the database unchanged: the
handler only reads. -/
def verifyRoute (db : DB) (code : String) (nowMs : Nat) : DB × VerifyResponse :=
  if code = "" then (db, .missingCode)
  else
    match verifyVoucherByCode db code with
    | none => (db, .notFound)
    | some voucher =>
      if voucher.expiresAt < nowMs then
        (db, .classified false voucher "Voucher is expired")
      else if voucher.status = "used" then
        (db, .classified false voucher "Voucher has already been used")
      else if voucher.status ≠ "active" then
        (db, .classified false voucher "Voucher is not active")
      else
        (db, .classified true voucher "Voucher is valid and ready to use")

/-- The response of POST /api/business/vouchers/redeem. joinFault is the
500 produced when the voucher has no joined business and the handler
dereferences voucher.business.id (TypeError caught by the catch block). -/
inductive RedeemResponse where
  | missingFields
  | notFound
  | wrongBusiness (validFor : String)
  | joinFault
  | expired
  | notActive
  | redeemFailed
  | success (voucher : VoucherView)
deriving Repr, DecidableEq

/-- Whether a redeem response is the 200 success body. -/
def RedeemResponse.isSuccess : RedeemResponse → Bool
  | .success _ => true
  | _ => false

/-- The message string of each redeem response, as written in the
handler. -/
def redeemMessage : RedeemResponse → String
  | .missingFields => "Voucher code and business ID are required"
  | .notFound => "Voucher not found"
  | .wrongBusiness _ => "This voucher is not valid for your business"
  | .joinFault => "Failed to redeem voucher"
  | .expired => "Voucher has expired"
  | .notActive => "Voucher is not active"
  | .redeemFailed => "Failed to redeem voucher"
  | .success _ => "Voucher redeemed successfully"

/-- The HTTP status of each redeem response. -/
def redeemHttpStatus : RedeemResponse → Nat
  | .missingFields => 400
  | .notFound => 404
  | .wrongBusiness _ => 403
  | .joinFault => 500
  | .expired => 400
  | .notActive => 400
  | .redeemFailed => 400
  | .success _ => 200

/-- POST /api/business/vouchers/redeem (storage.ts:980-1035): 400 when
either field is falsy, 404 when no voucher matches the code, 403 naming
the owning business when the voucher belongs to another business, 400
when expired, 400 when status is not "active", then the conditional
update useVoucher; on success the 200 body carries the joined voucher
with status and usedAt overridden. -/
def redeemRoute (db : DB) (code businessId : String) (nowMs : Nat) :
    DB × RedeemResponse :=
  if code = "" ∨ businessId = "" then (db, .missingFields)
  else
    match verifyVoucherByCode db code with
    | none => (db, .notFound)
    | some voucher =>
      match voucher.business with
      | none => (db, .joinFault)
      | some biz =>
        if biz.id ≠ businessId then (db, .wrongBusiness biz.name)
        else if voucher.expiresAt < nowMs then (db, .expired)
        else if voucher.status ≠ "active" then (db, .notActive)
        else
          let step := useVoucher db voucher.id nowMs
          if step.2 then
            (step.1, .success { voucher with status := "used", usedAt := some nowMs })
          else (step.1, .redeemFailed)

/-- The response of PATCH /api/vouchers/:id/use. -/
inductive UseResponse where
  | usedOk
  | couldNotBeUsed
deriving Repr, DecidableEq

/-- PATCH /api/vouchers/:id/use (storage.ts:910-921): calls useVoucher on
the path parameter directly; 400 when no row was affected, 200 otherwise.
The handler reads no request body and consults neither the expiry nor any
ownership information; authentication only gates access. -/
def patchVoucherUseRoute (db : DB) (voucherId : String) (nowMs : Nat) :
    DB × UseResponse :=
  let step := useVoucher db voucherId nowMs
  if step.2 then (step.1, .usedOk) else (step.1, .couldNotBeUsed)

/-- DatabaseStorage.createNotification (storage.ts:586-592): insert with a
fresh id. -/
def createNotification (db : DB) (userId title message type0 freshId : String)
    (read : Bool) : DB × Notification :=
  let n : Notification :=
    { id := freshId, userId := userId, title := title, message := message,
      type := type0, read := read }
  ({ db with notifications := db.notifications ++ [n] }, n)

/-- POST /api/notifications (storage.ts:1824-1841): creates the
notification from the body fields with read set to false. -/
def notificationsRoute (db : DB) (userId title message type0 freshId : String) :
    DB × Notification :=
  createNotification db userId title message type0 freshId false

/-- Insert payload for createBusinessPayment. -/
structure InsertBusinessPayment where
  businessId : String
  voucherId : String
  amount : Rat
  descr : String
  status : String
deriving Repr, DecidableEq

/-- DatabaseStorage.createBusinessPayment (storage.ts:686-693): insert
with a fresh id and createdAt now; stripeTransferId is not set. -/
def createBusinessPayment (db : DB) (payment : InsertBusinessPayment)
    (freshId : String) (nowMs : Nat) : DB × BusinessPayment :=
  let p : BusinessPayment :=
    { id := freshId, businessId := payment.businessId,
      voucherId := payment.voucherId, amount := payment.amount,
      descr := payment.descr, stripeTransferId := none,
      status := payment.status, createdAt := nowMs }
  ({ db with payments := db.payments ++ [p] }, p)

/-- DatabaseStorage.updateBusinessPaymentStatus (storage.ts:695-700):
UPDATE status on rows with the given id; the Boolean is rowCount > 0. -/
def updateBusinessPaymentStatus (db : DB) (id status : String) : DB × Bool :=
  ({ db with payments := db.payments.map (fun p =>
      if p.id = id then { p with status := status } else p) },
   db.payments.any (fun p => p.id == id))

/-- POST /api/business/payments/process (storage.ts:1855-1894): creates a
pending payment row from the body, simulates the transfer, then marks the
row completed. -/
def businessPaymentsProcessRoute (db : DB) (businessId voucherId : String)
    (amount : Rat) (descr : String) (freshId : String) (nowMs : Nat) :
    DB × BusinessPayment :=
  let step := createBusinessPayment db
    { businessId := businessId, voucherId := voucherId, amount := amount,
      descr := descr, status := "pending" } freshId nowMs
  ((updateBusinessPaymentStatus step.1 step.2.id "completed").1, step.2)

/-- JavaScript String.prototype.trim: strips leading and trailing
whitespace. -/
def jsTrim (s : String) : String :=
  ⟨((s.toList.dropWhile Char.isWhitespace).reverse.dropWhile Char.isWhitespace).reverse⟩

/-- The notification message built by the client helper
sendRedemptionNotification (part_007:899-914). -/
def redemptionNotificationMessage (dealTitle businessName : String) : String :=
  "Uw voucher voor \"" ++ dealTitle ++ "\" is succesvol gebruikt bij " ++ businessName

/-- The payment description built by the client helper
processBusinessPayment (part_007:916-934). -/
def paymentDescription (dealTitle : String) : String :=
  "Voucher uitbetaling: " ++ dealTitle

/-- Client helper sendRedemptionNotification (part_007:899-914): posts to
/api/notifications for the owning user of the verified voucher. Building
the body dereferences voucher.user.id, voucher.deal.title and
voucher.business.name; a null join throws inside the try block, whose
catch only logs, so no notification is created in that case. -/
def sendRedemptionNotification (db : DB) (voucher : VoucherView)
    (freshId : String) : DB :=
  match voucher.user, voucher.deal, voucher.business with
  | some u, some d, some b =>
    (notificationsRoute db u.id "Voucher Ingewisseld ✅"
      (redemptionNotificationMessage d.title b.name) "voucher_redeemed" freshId).1
  | _, _, _ => db

/-- Client helper processBusinessPayment (part_007:916-934): posts to
/api/business/payments/process with the component businessId, the
verified voucher id and parseFloat of the deal discounted price. Building
the body dereferences voucher.deal; a null join throws inside the try
block, whose catch only logs, so no payment is created in that case. -/
def processBusinessPayment (db : DB) (voucher : VoucherView)
    (businessId freshId : String) (nowMs : Nat) : DB :=
  match voucher.deal with
  | some d =>
    (businessPaymentsProcessRoute db businessId voucher.id d.discountedPrice
      (paymentDescription d.title) freshId nowMs).1
  | none => db

/-- The outcome of one run of the scanner auto-redeem flow, as surfaced to
the operator: requestError stands for a thrown apiRequest (non-2xx
response) caught by the outer catch, invalidVoucher for the abort on a
verify response with valid false, wrongBusinessToast for the client-side
business check, redeemed for the success path. -/
inductive FlowResult where
  | requestError
  | invalidVoucher (message : String)
  | wrongBusinessToast (name : String)
  | redeemed
deriving Repr, DecidableEq

/-- Client handleAutoRedeemVoucher (part_007): trims the entered code,
POSTs verify, aborts on an invalid classification, aborts when the
verified voucher belongs to another business, POSTs redeem, and on a
success body fires the two best-effort side effects: the redemption
notification and the business payment. freshNotifId and freshPayId stand
for the fresh row ids the two side-effect inserts draw. -/
def handleAutoRedeemVoucher (db : DB) (code businessId : String)
    (nowMs : Nat) (freshNotifId freshPayId : String) : DB × FlowResult :=
  let tcode := jsTrim code
  match (verifyRoute db tcode nowMs).2 with
  | .missingCode => (db, .requestError)
  | .notFound => (db, .requestError)
  | .classified false _ msg => (db, .invalidVoucher msg)
  | .classified true voucher _ =>
    match voucher.business with
    | none => (db, .requestError)
    | some biz =>
      if biz.id ≠ businessId then (db, .wrongBusinessToast biz.name)
      else
        match redeemRoute db tcode businessId nowMs with
        | (db1, .success _) =>
          let db2 := sendRedemptionNotification db1 voucher freshNotifId
          let db3 := processBusinessPayment db2 voucher businessId freshPayId nowMs
          (db3, .redeemed)
        | (db1, _) => (db1, .requestError)

/-- Client handleRedeemVoucher (part_007:782-821), the manual redeem
button: POSTs the trimmed entered code and the business id to the redeem
endpoint and, on a success body, only updates local UI state and shows a
toast; unlike the auto-redeem path it calls neither
sendRedemptionNotification nor processBusinessPayment, so its only
database effect is whatever the redeem endpoint itself does. The Boolean
is the success flag of the response body. -/
def handleRedeemVoucher (db : DB) (code businessId : String) (nowMs : Nat) :
    DB × Bool :=
  let step := redeemRoute db (jsTrim code) businessId nowMs
  (step.1, step.2.isSuccess)

/-- One operation of the examined redemption flow, for iterated-run
statements: a scanner auto-redeem run, a direct POST redeem, a direct
PATCH use, or a POST verify. -/
inductive RedeemOp where
  | scanFlow (code businessId : String) (nowMs : Nat) (freshNotifId freshPayId : String)
  | redeemPost (code businessId : String) (nowMs : Nat)
  | patchUse (voucherId : String) (nowMs : Nat)
  | verifyPost (code : String) (nowMs : Nat)
deriving Repr, DecidableEq

/-- The database after one redemption-flow operation. -/
def applyOp (db : DB) : RedeemOp → DB
  | .scanFlow c b t n p => (handleAutoRedeemVoucher db c b t n p).1
  | .redeemPost c b t => (redeemRoute db c b t).1
  | .patchUse v t => (patchVoucherUseRoute db v t).1
  | .verifyPost c t => (verifyRoute db c t).1

/-- The database after a sequence of redemption-flow operations. -/
def applyOps (db : DB) : List RedeemOp → DB
  | [] => db
  | op :: rest => applyOps (applyOp db op) rest

/-- How many stored payments reference a given voucher id. -/
def paymentCount (db : DB) (voucherId : String) : Nat :=
  (db.payments.filter (fun p => p.voucherId == voucherId)).length

/-- Whether some stored voucher row has the given id and status "active". -/
def hasActiveVoucher (db : DB) (voucherId : String) : Bool :=
  db.vouchers.any (isActiveWithId voucherId)

/-- The payment-uniqueness invariant for one voucher id: at most one
stored payment references it, and none does while a stored row with that
id is still active (a payment is only ever created by the run that
deactivates the row). -/
def pcInv (db : DB) (voucherId : String) : Prop :=
  paymentCount db voucherId ≤ 1 ∧
  (hasActiveVoucher db voucherId = true → paymentCount db voucherId = 0)

/-- Whether a character list occurs contiguously inside another. -/
def containsChars (needle : List Char) : List Char → Bool
  | [] => needle.isEmpty
  | c :: rest => needle.isPrefixOf (c :: rest) || containsChars needle rest

/-- Whether a string contains the words "already used". -/
def mentionsAlreadyUsed (s : String) : Bool :=
  containsChars "already used".toList s.toList

/-- The per-row invariant relating usedAt and status. -/
abbrev voucherTimestampInv (v : Voucher) : Prop :=
  v.usedAt.isSome ↔ v.status = "used"

/-- The notification row the redemption flow inserts for the buyer. -/
def redemptionNotificationRow (nid uid dealTitle businessName : String) : Notification :=
  { id := nid, userId := uid, title := "Voucher Ingewisseld ✅",
    message := redemptionNotificationMessage dealTitle businessName,
    type := "voucher_redeemed", read := false }

/-- The pending payment row the redemption flow inserts before marking it
completed. -/
def pendingRedemptionPayment (bid vid : String) (d : DealView) (pid : String)
    (t : Nat) : BusinessPayment :=
  { id := pid, businessId := bid, voucherId := vid, amount := d.discountedPrice,
    descr := paymentDescription d.title, stripeTransferId := none,
    status := "pending", createdAt := t }

/-- The row transformation of updateBusinessPaymentStatus specialised to
status "completed". -/
def completeIfId (pid : String) (p : BusinessPayment) : BusinessPayment :=
  if p.id = pid then { p with status := "completed" } else p

section SampleData

/-- A sample user row for concrete runs. -/
def sampleUser : User := { id := "u1", email := "buyer@example.com" }

/-- A sample business row for concrete runs. -/
def sampleBusiness : Business :=
  { id := "b1", name := "Cafe Flora", address := "Main Street 1", city := "Antwerp" }

/-- A sample deal row of business b1 for concrete runs. -/
def sampleDeal : Deal :=
  { id := "d1", businessId := "b1", title := "Lunch Deal", descr := "Two course lunch",
    originalPrice := 40, discountedPrice := 25, discountPercentage := 38 }

/-- A sample active voucher of user u1 on deal d1, purchased at 1000,
expiring at 2000. -/
def sampleVoucher : Voucher :=
  { id := "v1", userId := "u1", dealId := "d1", code := "DS-1700000000000-AB12CD",
    status := "active", purchasedAt := 1000, usedAt := none, expiresAt := 2000 }

/-- A sample database with one of each row and no notifications or
payments yet. -/
def sampleDb : DB :=
  { vouchers := [sampleVoucher], deals := [sampleDeal],
    businesses := [sampleBusiness], users := [sampleUser],
    notifications := [], payments := [] }

/-- An insert payload that supplies an explicit status and no usedAt, as
insertVoucherSchema admits. -/
def usedStatusInsert : InsertVoucher :=
  { userId := "u1", dealId := "d1", code := "CALLER-CODE", status := some "used",
    usedAt := none, expiresAt := some 9000 }

end SampleData

theorem isActiveWithId_eq_true {vid : String} {v : Voucher} :
    isActiveWithId vid v = true ↔ v.id = vid ∧ v.status = "active" := by
  simp [isActiveWithId]

theorem markUsed_of_not {vid : String} {t : Nat} {v : Voucher}
    (h : ¬(v.id = vid ∧ v.status = "active")) : markUsed vid t v = v := by
  simp [markUsed, h]

theorem markUsed_of_active {vid : String} {t : Nat} {v : Voucher}
    (h1 : v.id = vid) (h2 : v.status = "active") :
    markUsed vid t v = { v with status := "used", usedAt := some t } := by
  simp [markUsed, h1, h2]

theorem useVoucher_fst_vouchers (db : DB) (vid : String) (t : Nat) :
    (useVoucher db vid t).1.vouchers = db.vouchers.map (markUsed vid t) := rfl

theorem useVoucher_fst_others (db : DB) (vid : String) (t : Nat) :
    (useVoucher db vid t).1.deals = db.deals ∧
    (useVoucher db vid t).1.businesses = db.businesses ∧
    (useVoucher db vid t).1.users = db.users ∧
    (useVoucher db vid t).1.notifications = db.notifications ∧
    (useVoucher db vid t).1.payments = db.payments :=
  ⟨rfl, rfl, rfl, rfl, rfl⟩

theorem useVoucher_of_no_active {db : DB} {vid : String} {t : Nat}
    (h : ∀ v ∈ db.vouchers, ¬(v.id = vid ∧ v.status = "active")) :
    useVoucher db vid t = (db, false) := by
  have hmap : db.vouchers.map (markUsed vid t) = db.vouchers := by
    have hcong := List.map_congr_left (l := db.vouchers) (f := markUsed vid t)
      (g := id) (fun v hv => markUsed_of_not (h v hv))
    simpa using hcong
  have hany : db.vouchers.any (isActiveWithId vid) = false :=
    List.any_eq_false.mpr (fun v hv => by
      simp only [isActiveWithId_eq_true]
      exact h v hv)
  simp [useVoucher, hmap, hany]

theorem useVoucher_of_active {db : DB} {vid : String} {t : Nat}
    (h : ∃ v ∈ db.vouchers, v.id = vid ∧ v.status = "active") :
    (useVoucher db vid t).2 = true := by
  rcases h with ⟨v, hv, h1, h2⟩
  exact List.any_eq_true.mpr ⟨v, hv, isActiveWithId_eq_true.mpr ⟨h1, h2⟩⟩

theorem no_active_after_markUsed {db : DB} {vid : String} {t : Nat} :
    ∀ w ∈ db.vouchers.map (markUsed vid t), ¬(w.id = vid ∧ w.status = "active") := by
  intro w hw
  rcases List.mem_map.mp hw with ⟨v, hv, rfl⟩
  by_cases h : v.id = vid ∧ v.status = "active"
  · rw [markUsed_of_active h.1 h.2]
    intro hcon
    have hused : "used" = "active" := hcon.2
    exact absurd hused (by decide)
  · rw [markUsed_of_not h]
    exact h

/-- Claim C1: useVoucher is a compare-and-set on status. When some stored
row has the requested id and status "active", the call reports true, that
row is rewritten to status "used" with usedAt stamped, untouched rows
survive unchanged, and a second call on the resulting state changes
nothing and reports false; when no such row exists the call changes
nothing and reports false. So of two successive redemption attempts on an
initially active voucher exactly one succeeds. -/
theorem useVoucher_compare_and_set (db : DB) (vid : String) (t1 t2 : Nat) :
    ((∀ v ∈ db.vouchers, ¬(v.id = vid ∧ v.status = "active")) →
      useVoucher db vid t1 = (db, false)) ∧
    ((∃ v ∈ db.vouchers, v.id = vid ∧ v.status = "active") →
      (useVoucher db vid t1).2 = true ∧
      (∀ v ∈ db.vouchers, v.id = vid → v.status = "active" →
        { v with status := "used", usedAt := some t1 } ∈ (useVoucher db vid t1).1.vouchers) ∧
      (∀ v ∈ db.vouchers, ¬(v.id = vid ∧ v.status = "active") →
        v ∈ (useVoucher db vid t1).1.vouchers) ∧
      (useVoucher db vid t1).1.vouchers.length = db.vouchers.length ∧
      useVoucher (useVoucher db vid t1).1 vid t2 = ((useVoucher db vid t1).1, false)) := by
  constructor
  · exact useVoucher_of_no_active
  · intro h
    refine ⟨useVoucher_of_active h, ?_, ?_, ?_, ?_⟩
    · intro v hv h1 h2
      rw [useVoucher_fst_vouchers, ← markUsed_of_active (t := t1) h1 h2]
      exact List.mem_map_of_mem _ hv
    · intro v hv hn
      rw [useVoucher_fst_vouchers, ← markUsed_of_not (t := t1) hn]
      exact List.mem_map_of_mem _ hv
    · rw [useVoucher_fst_vouchers]
      exact List.length_map _ _
    · exact useVoucher_of_no_active (by
        rw [useVoucher_fst_vouchers]
        exact no_active_after_markUsed)

/-- Witness for C1 on the sample database: voucher v1 is stored active, so
the first call succeeds and the immediate retry fails without changes. -/
theorem useVoucher_compare_and_set_witness :
    (useVoucher sampleDb "v1" 1500).2 = true ∧
    useVoucher (useVoucher sampleDb "v1" 1500).1 "v1" 1600 =
      ((useVoucher sampleDb "v1" 1500).1, false) := by
  have h := (useVoucher_compare_and_set sampleDb "v1" 1500 1600).2
    ⟨sampleVoucher, by decide, by decide, by decide⟩
  exact ⟨h.1, h.2.2.2.2⟩

/-- Claim C10: PATCH /api/vouchers/:id/use calls useVoucher directly, so
any stored voucher whose status is "active" is transitioned to "used"
with usedAt stamped even when its expiresAt is already in the past; the
handler consults no expiry, user or business information (its embedding
takes none), unlike the business redemption route. -/
theorem patchUse_skips_expiry_and_ownership (db : DB) (vid : String) (t : Nat)
    (h : ∃ v ∈ db.vouchers, v.id = vid ∧ v.status = "active" ∧ v.expiresAt < t) :
    (patchVoucherUseRoute db vid t).2 = .usedOk ∧
    (∀ v ∈ db.vouchers, v.id = vid → v.status = "active" →
      { v with status := "used", usedAt := some t } ∈
        (patchVoucherUseRoute db vid t).1.vouchers) := by
  rcases h with ⟨v, hv, h1, h2, _⟩
  have hany : (useVoucher db vid t).2 = true :=
    useVoucher_of_active ⟨v, hv, h1, h2⟩
  constructor
  · simp [patchVoucherUseRoute, hany]
  · intro w hw hw1 hw2
    have hm : { w with status := "used", usedAt := some t } ∈
        (useVoucher db vid t).1.vouchers := by
      rw [useVoucher_fst_vouchers, ← markUsed_of_active (t := t) hw1 hw2]
      exact List.mem_map_of_mem _ hw
    simpa [patchVoucherUseRoute, hany] using hm

/-- Witness for C10 on the sample database: v1 is active but expired at
time 2500 (expiresAt is 2000), yet the PATCH path succeeds. -/
theorem patchUse_skips_expiry_and_ownership_witness :
    (patchVoucherUseRoute sampleDb "v1" 2500).2 = .usedOk := by
  exact (patchUse_skips_expiry_and_ownership sampleDb "v1" 2500
    ⟨sampleVoucher, by decide, by decide, by decide, by decide⟩).1

/-- Claim C7: when the issuance payload carries no explicit expiry,
createVoucher stores expiresAt equal to the issuance time plus exactly
30 days in milliseconds. -/
theorem createVoucher_default_expiry (db : DB) (ins : InsertVoucher)
    (fid : String) (t : Nat) (r : String) (h : ins.expiresAt = none) :
    (createVoucher db ins fid t r).2.expiresAt = t + 30 * 24 * 60 * 60 * 1000 := by
  simp [createVoucher, h, thirtyDaysMs]

/-- Witness for C7: a concrete issuance at time 1000 with no expiry is
stamped 1000 + 2592000000. -/
theorem createVoucher_default_expiry_witness :
    (createVoucher sampleDb
      { userId := "u1", dealId := "d1", code := "X", status := none,
        usedAt := none, expiresAt := none } "v7" 1000 "0.abc123").2.expiresAt =
      1000 + 30 * 24 * 60 * 60 * 1000 :=
  createVoucher_default_expiry sampleDb
    { userId := "u1", dealId := "d1", code := "X", status := none,
      usedAt := none, expiresAt := none } "v7" 1000 "0.abc123" rfl

/-- Claim C8: the stored code is always the generated
DS-<epoch-ms>-<suffix> string, with the suffix the uppercased first six
characters of the random base-36 expansion (six characters whenever the
expansion is long enough); the code supplied by the caller, such as the
payment route V<timestamp> value, never reaches storage, so every stored
code bears the DS- prefix. -/
theorem createVoucher_code_generated (db : DB) (ins : InsertVoucher)
    (fid : String) (t : Nat) (r : String) :
    (createVoucher db ins fid t r).2.code =
      "DS-" ++ toString t ++ "-" ++ randomSuffix r ∧
    (∀ c : String, (createVoucher db { ins with code := c } fid t r).2.code =
      (createVoucher db ins fid t r).2.code) ∧
    (∃ rest, (createVoucher db ins fid t r).2.code = "DS-" ++ rest) ∧
    (randomSuffix r).length ≤ 6 ∧
    (8 ≤ r.length → (randomSuffix r).length = 6) := by
  have hcode : (createVoucher db ins fid t r).2.code = voucherCode t r := rfl
  have hlen : (randomSuffix r).length = min 6 (r.length - 2) := by
    show (((r.toList.drop 2).take 6).map Char.toUpper).length = min 6 (r.length - 2)
    rw [List.length_map, List.length_take, List.length_drop]
    rfl
  refine ⟨hcode, fun c => rfl, ⟨toString t ++ "-" ++ randomSuffix r, ?_⟩, ?_, ?_⟩
  · rw [hcode]
    simp [voucherCode, String.append_assoc]
  · rw [hlen]
    exact Nat.min_le_left _ _
  · intro h8
    rw [hlen]
    omega

/-- Witness for C8: issuing at epoch 1700000000000 with random expansion
"0.k3j2l5m" stores code DS-1700000000000-K3J2L5 regardless of the
supplied code value V1700000000000. -/
theorem createVoucher_code_generated_witness :
    (createVoucher sampleDb
      { userId := "u1", dealId := "d1", code := "V1700000000000", status := none,
        usedAt := none, expiresAt := none } "v8" 1700000000000 "0.k3j2l5m").2.code =
      "DS-" ++ toString 1700000000000 ++ "-" ++ randomSuffix "0.k3j2l5m" ∧
    8 ≤ ("0.k3j2l5m" : String).length ∧
    (randomSuffix "0.k3j2l5m").length = 6 := by
  have h := createVoucher_code_generated sampleDb
    { userId := "u1", dealId := "d1", code := "V1700000000000", status := none,
      usedAt := none, expiresAt := none } "v8" 1700000000000 "0.k3j2l5m"
  exact ⟨h.1, by decide, h.2.2.2.2 (by decide)⟩

/-- Counterexample for C6: insertVoucherSchema omits only id and
purchasedAt, so a caller may supply an explicit status; createVoucher
spreads the payload, and this concrete insert with status "used" and no
usedAt is stored exactly so, refuting that every created voucher has
status "active" and no usedAt, and breaking the usedAt-iff-used
invariant on creation. -/
theorem createVoucher_explicit_status_breaks_invariant :
    (createVoucher sampleDb usedStatusInsert "v9" 100 "0.abc123").2.status = "used" ∧
    (createVoucher sampleDb usedStatusInsert "v9" 100 "0.abc123").2.usedAt = none ∧
    ¬ voucherTimestampInv (createVoucher sampleDb usedStatusInsert "v9" 100 "0.abc123").2 := by
  refine ⟨by decide, by decide, ?_⟩
  intro h
  have hsome := h.mpr (by decide)
  simp [createVoucher, usedStatusInsert] at hsome

/-- Claim C6 as amended: when the insert payload leaves status and usedAt
unset, as every in-repo caller does, createVoucher stores status "active"
with usedAt NULL, and the whole database keeps the usedAt-iff-used row
invariant; useVoucher, the only voucher mutation, sets status "used" and
usedAt together and therefore also preserves the invariant. -/
theorem voucher_lifecycle_invariant (db : DB) (ins : InsertVoucher)
    (fid : String) (t : Nat) (r : String) (vid : String) (t2 : Nat)
    (hs : ins.status = none) (hu : ins.usedAt = none) :
    (createVoucher db ins fid t r).2.status = "active" ∧
    (createVoucher db ins fid t r).2.usedAt = none ∧
    ((∀ v ∈ db.vouchers, voucherTimestampInv v) →
      ∀ v ∈ (createVoucher db ins fid t r).1.vouchers, voucherTimestampInv v) ∧
    ((∀ v ∈ db.vouchers, voucherTimestampInv v) →
      ∀ v ∈ (useVoucher db vid t2).1.vouchers, voucherTimestampInv v) := by
  have hst : (createVoucher db ins fid t r).2.status = "active" := by
    simp [createVoucher, hs]
  have hua : (createVoucher db ins fid t r).2.usedAt = none := by
    simp [createVoucher, hu]
  have hsplit : (createVoucher db ins fid t r).1.vouchers =
      db.vouchers ++ [(createVoucher db ins fid t r).2] := rfl
  refine ⟨hst, hua, ?_, ?_⟩
  · intro hall v hv
    rw [hsplit] at hv
    rcases List.mem_append.mp hv with hv | hv
    · exact hall v hv
    · have hv2 : v = (createVoucher db ins fid t r).2 := List.mem_singleton.mp hv
      rw [hv2]
      simp only [voucherTimestampInv, hua, hst]
      decide
  · intro hall v hv
    rw [useVoucher_fst_vouchers] at hv
    rcases List.mem_map.mp hv with ⟨w, hw, rfl⟩
    by_cases hcase : w.id = vid ∧ w.status = "active"
    · rw [markUsed_of_active hcase.1 hcase.2]
      constructor
      · intro _
        rfl
      · intro _
        rfl
    · rw [markUsed_of_not hcase]
      exact hall w hw

/-- Witness for C6 as amended: a default-shaped insert on the sample
database yields an active voucher with no usedAt, and redeeming v1 keeps
the invariant on every row. -/
theorem voucher_lifecycle_invariant_witness :
    (createVoucher sampleDb
      { userId := "u1", dealId := "d1", code := "X", status := none,
        usedAt := none, expiresAt := none } "v6" 1000 "0.abc123").2.status = "active" ∧
    (∀ v ∈ (useVoucher sampleDb "v1" 1500).1.vouchers, voucherTimestampInv v) := by
  have h := voucher_lifecycle_invariant sampleDb
    { userId := "u1", dealId := "d1", code := "X", status := none,
      usedAt := none, expiresAt := none } "v6" 1000 "0.abc123" "v1" 1500 rfl rfl
  exact ⟨h.1, h.2.2.2 (by decide)⟩

theorem verifyRoute_fst (db : DB) (code : String) (t : Nat) :
    (verifyRoute db code t).1 = db := by
  unfold verifyRoute
  by_cases hc : code = ""
  · simp [hc]
  · simp only [hc, if_false]
    cases hfind : verifyVoucherByCode db code with
    | none => rfl
    | some v =>
      by_cases h1 : v.expiresAt < t
      · simp [h1]
      · by_cases h2 : v.status = "used"
        · simp [h1, h2]
        · by_cases h3 : v.status ≠ "active"
          · simp [h1, h2, h3]
          · simp [h1, h2, h3]

/-- Counterexample for C2: the verify handler rejects a falsy code field
with 400 before any lookup, so the empty code string, which matches no
stored voucher, is not classified as not found. -/
theorem verifyRoute_empty_code_counterexample :
    verifyVoucherByCode sampleDb "" = none ∧
    (verifyRoute sampleDb "" 1500).2 = .missingCode ∧
    (verifyRoute sampleDb "" 1500).2 ≠ .notFound := by
  exact ⟨by decide, by decide, by decide⟩

/-- Claim C2 as amended: for every nonempty code string the verify
handler classifies by first match in the order not found, expired (strict
comparison of expiresAt with now, even when the stored status is still
"active"), used, inactive, valid; an empty code is rejected up front with
400; and for every code the handler mutates no row. -/
theorem verifyRoute_classification (db : DB) (code : String) (t : Nat) :
    (verifyRoute db code t).1 = db ∧
    (code ≠ "" →
      (verifyVoucherByCode db code = none →
        (verifyRoute db code t).2 = .notFound) ∧
      (∀ v, verifyVoucherByCode db code = some v →
        (v.expiresAt < t →
          (verifyRoute db code t).2 = .classified false v "Voucher is expired") ∧
        (¬ v.expiresAt < t → v.status = "used" →
          (verifyRoute db code t).2 = .classified false v "Voucher has already been used") ∧
        (¬ v.expiresAt < t → v.status ≠ "used" → v.status ≠ "active" →
          (verifyRoute db code t).2 = .classified false v "Voucher is not active") ∧
        (¬ v.expiresAt < t → v.status = "active" →
          (verifyRoute db code t).2 = .classified true v "Voucher is valid and ready to use"))) := by
  refine ⟨verifyRoute_fst db code t, ?_⟩
  intro hc
  constructor
  · intro hfind
    simp [verifyRoute, hc, hfind]
  · intro v hfind
    refine ⟨?_, ?_, ?_, ?_⟩
    · intro h1
      simp [verifyRoute, hc, hfind, h1]
    · intro h1 h2
      simp [verifyRoute, hc, hfind, h1, h2]
    · intro h1 h2 h3
      simp [verifyRoute, hc, hfind, h1, h2, h3]
    · intro h1 h2
      have h3 : v.status ≠ "used" := by
        rw [h2]
        decide
      simp [verifyRoute, hc, hfind, h1, h2, h3]

/-- Witness for C2 as amended: on the sample database the stored active,
unexpired voucher code is classified valid. -/
theorem verifyRoute_classification_witness :
    (verifyRoute sampleDb "DS-1700000000000-AB12CD" 1500).2 =
      .classified true (voucherView sampleDb sampleVoucher)
        "Voucher is valid and ready to use" := by
  have h := (verifyRoute_classification sampleDb "DS-1700000000000-AB12CD" 1500).2
    (by decide)
  exact (h.2 (voucherView sampleDb sampleVoucher) (by decide)).2.2.2
    (by decide) (by decide)

theorem useVoucher_fst_of_false {db : DB} {vid : String} {t : Nat}
    (h : (useVoucher db vid t).2 = false) : (useVoucher db vid t).1 = db := by
  have hall : ∀ v ∈ db.vouchers, ¬(v.id = vid ∧ v.status = "active") := by
    intro v hv hcon
    exact List.any_eq_false.mp h v hv (isActiveWithId_eq_true.mpr hcon)
  exact congrArg Prod.fst (useVoucher_of_no_active hall)

theorem redeemRoute_fst_of_not_success {db : DB} {code bid : String} {t : Nat}
    (h : (redeemRoute db code bid t).2.isSuccess = false) :
    (redeemRoute db code bid t).1 = db := by
  by_cases hc : code = "" ∨ bid = ""
  · simp [redeemRoute, hc]
  · cases hfind : verifyVoucherByCode db code with
    | none => simp [redeemRoute, hc, hfind]
    | some v =>
      cases hbiz : v.business with
      | none => simp [redeemRoute, hc, hfind, hbiz]
      | some b =>
        by_cases hb : b.id = bid
        · by_cases hexp : v.expiresAt < t
          · simp [redeemRoute, hc, hfind, hbiz, hb, hexp]
          · by_cases hact : v.status = "active"
            · have hact2 : ¬ v.status ≠ "active" := by simp [hact]
              cases hok : (useVoucher db v.id t).2 with
              | true =>
                rw [redeemRoute] at h
                simp [hc, hfind, hbiz, hb, hexp, hact2, hok,
                  RedeemResponse.isSuccess] at h
              | false =>
                rw [redeemRoute]
                simp only [hc, if_false, hfind, hbiz, hb, hexp, hact2, hok]
                simp [useVoucher_fst_of_false hok]
            · have hact2 : v.status ≠ "active" := hact
              simp [redeemRoute, hc, hfind, hbiz, hb, hexp, hact2]
        · simp [redeemRoute, hc, hfind, hbiz, hb]

/-- Claim C3: the redeem handler checks its preconditions in the order
existence of the voucher, ownership by the claiming business (rejecting
with 403 and naming the business the voucher does belong to), expiry,
then active status; and every non-success response leaves the database
unchanged. The field-presence 400 guard runs before these checks, so the
ordered cascade is stated for requests whose two fields are nonempty. -/
theorem redeemRoute_precondition_order (db : DB) (code bid : String) (t : Nat) :
    ((redeemRoute db code bid t).2.isSuccess = false →
      (redeemRoute db code bid t).1 = db) ∧
    (code ≠ "" → bid ≠ "" →
      (verifyVoucherByCode db code = none →
        (redeemRoute db code bid t).2 = .notFound) ∧
      (∀ v b, verifyVoucherByCode db code = some v → v.business = some b →
        (b.id ≠ bid → (redeemRoute db code bid t).2 = .wrongBusiness b.name) ∧
        (b.id = bid → v.expiresAt < t → (redeemRoute db code bid t).2 = .expired) ∧
        (b.id = bid → ¬ v.expiresAt < t → v.status ≠ "active" →
          (redeemRoute db code bid t).2 = .notActive))) := by
  constructor
  · exact redeemRoute_fst_of_not_success
  · intro hc hb
    have hcb : ¬(code = "" ∨ bid = "") := by
      simp [hc, hb]
    constructor
    · intro hfind
      simp [redeemRoute, hcb, hfind]
    · intro v b hfind hbiz
      refine ⟨?_, ?_, ?_⟩
      · intro hne
        simp [redeemRoute, hcb, hfind, hbiz, hne]
      · intro heq hexp
        simp [redeemRoute, hcb, hfind, hbiz, heq, hexp]
      · intro heq hexp hact
        simp [redeemRoute, hcb, hfind, hbiz, heq, hexp, hact]

/-- Witness for C3: on the sample database, redeeming the stored code
with the wrong business b2 is rejected naming Cafe Flora, the owning
business, and the rejection leaves the database unchanged. -/
theorem redeemRoute_precondition_order_witness :
    (redeemRoute sampleDb "DS-1700000000000-AB12CD" "b2" 1500).2 =
      .wrongBusiness "Cafe Flora" ∧
    (redeemRoute sampleDb "DS-1700000000000-AB12CD" "b2" 1500).1 = sampleDb := by
  have h := redeemRoute_precondition_order sampleDb "DS-1700000000000-AB12CD" "b2" 1500
  have hwrong := ((h.2 (by decide) (by decide)).2
    (voucherView sampleDb sampleVoucher)
    { id := "b1", name := "Cafe Flora", address := "Main Street 1", city := "Antwerp" }
    (by decide) (by decide)).1 (by decide)
  refine ⟨hwrong, h.1 ?_⟩
  rw [hwrong]
  decide

theorem markUsed_code (rid : String) (t : Nat) (w : Voucher) :
    (markUsed rid t w).code = w.code := by
  unfold markUsed
  split <;> rfl

theorem markUsed_id (rid : String) (t : Nat) (w : Voucher) :
    (markUsed rid t w).id = w.id := by
  unfold markUsed
  split <;> rfl

theorem voucherView_id (db : DB) (v : Voucher) : (voucherView db v).id = v.id := rfl

theorem voucherView_code (db : DB) (v : Voucher) : (voucherView db v).code = v.code := rfl

theorem voucherView_status (db : DB) (v : Voucher) :
    (voucherView db v).status = v.status := rfl

theorem voucherView_expiresAt (db : DB) (v : Voucher) :
    (voucherView db v).expiresAt = v.expiresAt := rfl

theorem voucherView_user (db : DB) (v : Voucher) :
    (voucherView db v).user = (db.users.find? (fun u => u.id == v.userId)).map
      (fun u => ({ id := u.id, email := u.email } : UserView)) := rfl

theorem voucherView_deal (db : DB) (v : Voucher) :
    (voucherView db v).deal = (db.deals.find? (fun d => d.id == v.dealId)).map
      (fun d => ({ id := d.id,
                   title := d.title,
                   descr := d.descr,
                   originalPrice := d.originalPrice,
                   discountedPrice := d.discountedPrice,
                   discountPercentage := d.discountPercentage } : DealView)) := rfl

theorem voucherView_business (db : DB) (v : Voucher) :
    (voucherView db v).business =
      ((db.deals.find? (fun d => d.id == v.dealId)).bind
        (fun d => db.businesses.find? (fun b => b.id == d.businessId))).map
      (fun b => ({ id := b.id,
                   name := b.name,
                   address := b.address,
                   city := b.city } : BusinessView)) := rfl

theorem voucherView_ignores_vouchers (db : DB) (l : List Voucher) (v : Voucher) :
    voucherView { db with vouchers := l } v = voucherView db v := rfl

theorem voucherView_markUsed_active {db : DB} {rid : String} {t : Nat} {row : Voucher}
    (h1 : row.id = rid) (h2 : row.status = "active") :
    voucherView db (markUsed rid t row) =
      { voucherView db row with status := "used", usedAt := some t } := by
  rw [markUsed_of_active h1 h2]
  rfl

theorem verifyVoucherByCode_eq (db : DB) (code : String) :
    verifyVoucherByCode db code =
      (db.vouchers.find? (fun v => v.code == code)).map (voucherView db) := rfl

theorem verifyVoucherByCode_markUsed {db : DB} {code : String} {row : Voucher}
    {rid : String} {t : Nat}
    (hfind : db.vouchers.find? (fun v => v.code == code) = some row) :
    { db with vouchers := db.vouchers.map (markUsed rid t) }.vouchers.find?
        (fun v => v.code == code) = some (markUsed rid t row) := by
  show (db.vouchers.map (markUsed rid t)).find? (fun v => v.code == code) =
    some (markUsed rid t row)
  rw [List.find?_map]
  have hpred : ((fun v : Voucher => v.code == code) ∘ markUsed rid t) =
      (fun v : Voucher => v.code == code) := by
    funext w
    show ((markUsed rid t w).code == code) = (w.code == code)
    rw [markUsed_code]
  rw [hpred, hfind]
  rfl

theorem redeemRoute_success_inv {db : DB} {code bid : String} {t : Nat}
    {v : VoucherView} (h : (redeemRoute db code bid t).2 = .success v) :
    ∃ row b,
      db.vouchers.find? (fun w => w.code == code) = some row ∧
      row.status = "active" ∧ ¬ row.expiresAt < t ∧
      (voucherView db row).business = some b ∧ b.id = bid ∧
      code ≠ "" ∧ bid ≠ "" ∧
      v = { voucherView db row with status := "used", usedAt := some t } ∧
      (redeemRoute db code bid t).1 =
        { db with vouchers := db.vouchers.map (markUsed row.id t) } := by
  by_cases hcb : code = "" ∨ bid = ""
  · simp [redeemRoute, hcb] at h
  · cases hfind0 : verifyVoucherByCode db code with
    | none => simp [redeemRoute, hcb, hfind0] at h
    | some vv =>
      rcases Option.map_eq_some'.mp
        ((verifyVoucherByCode_eq db code) ▸ hfind0) with ⟨row, hrow, hview⟩
      cases hbiz : vv.business with
      | none => simp [redeemRoute, hcb, hfind0, hbiz] at h
      | some b =>
        by_cases hb : b.id = bid
        · by_cases hexp : vv.expiresAt < t
          · simp [redeemRoute, hcb, hfind0, hbiz, hb, hexp] at h
          · by_cases hact : vv.status = "active"
            · have hact2 : ¬ vv.status ≠ "active" := by simp [hact]
              have hrowid : row.id = vv.id := by
                rw [← hview]
                rfl
              have hrowst : row.status = "active" := by
                rw [← hview] at hact
                exact hact
              have hok : (useVoucher db vv.id t).2 = true :=
                useVoucher_of_active
                  ⟨row, List.mem_of_find?_eq_some hrow, hrowid, hrowst⟩
              have hred : redeemRoute db code bid t =
                  ((useVoucher db vv.id t).1,
                   .success { vv with status := "used", usedAt := some t }) := by
                simp [redeemRoute, hcb, hfind0, hbiz, hb, hexp, hact2, hok]
              rw [hred] at h
              have hv : v = { vv with status := "used", usedAt := some t } :=
                (RedeemResponse.success.injEq _ _).mp h.symm
              refine ⟨row, b, hrow, hrowst, ?_, ?_, hb, ?_, ?_, ?_, ?_⟩
              · rw [← hview] at hexp
                exact hexp
              · rw [hview]
                exact hbiz
              · intro hc
                exact hcb (Or.inl hc)
              · intro hc
                exact hcb (Or.inr hc)
              · rw [hv, ← hview]
              · rw [hred, ← hrowid]
                rfl
            · have hact2 : vv.status ≠ "active" := hact
              simp [redeemRoute, hcb, hfind0, hbiz, hb, hexp, hact2] at h
        · simp [redeemRoute, hcb, hfind0, hbiz, hb] at h

/-- Counterexample for C5: on the sample database the first redeem of the
stored code succeeds, and re-submitting the same code to the redeem
endpoint is rejected with the 400 response whose message is "Voucher is
not active" - the words "already used" appear nowhere in it - because the
redeem handler folds the used state into its generic not-active check. -/
theorem redeem_resubmit_message_counterexample :
    (redeemRoute sampleDb "DS-1700000000000-AB12CD" "b1" 1500).2.isSuccess = true ∧
    (redeemRoute (redeemRoute sampleDb "DS-1700000000000-AB12CD" "b1" 1500).1
      "DS-1700000000000-AB12CD" "b1" 1600).2 = .notActive ∧
    redeemMessage .notActive = "Voucher is not active" ∧
    redeemHttpStatus .notActive = 400 ∧
    mentionsAlreadyUsed (redeemMessage (redeemRoute
      (redeemRoute sampleDb "DS-1700000000000-AB12CD" "b1" 1500).1
      "DS-1700000000000-AB12CD" "b1" 1600).2) = false := by
  exact ⟨by decide, by decide, by decide, by decide, by decide⟩

/-- Claim C5 as amended: after a successful redemption, re-submitting the
same code to the redeem endpoint deterministically fails - 400 "Voucher
has expired" once expiry has passed, otherwise 400 "Voucher is not
active" - leaves the database unchanged, and the scanner flow that drives
redemption aborts at its verification step, surfacing "Voucher has
already been used" for an unexpired voucher and likewise changing
nothing, so no second transition happens and no second payment is
created. -/
theorem redeem_resubmit_rejected (db : DB) (code bid : String) (t1 t2 : Nat)
    (nid pid : String) (v : VoucherView)
    (hfirst : (redeemRoute db code bid t1).2 = .success v)
    (htrim : jsTrim code = code) :
    (v.expiresAt < t2 →
      (redeemRoute (redeemRoute db code bid t1).1 code bid t2).2 = .expired) ∧
    (¬ v.expiresAt < t2 →
      (redeemRoute (redeemRoute db code bid t1).1 code bid t2).2 = .notActive) ∧
    (redeemRoute (redeemRoute db code bid t1).1 code bid t2).1 =
      (redeemRoute db code bid t1).1 ∧
    (¬ v.expiresAt < t2 →
      (handleAutoRedeemVoucher (redeemRoute db code bid t1).1 code bid t2 nid pid).2 =
        .invalidVoucher "Voucher has already been used") ∧
    (v.expiresAt < t2 →
      (handleAutoRedeemVoucher (redeemRoute db code bid t1).1 code bid t2 nid pid).2 =
        .invalidVoucher "Voucher is expired") ∧
    (handleAutoRedeemVoucher (redeemRoute db code bid t1).1 code bid t2 nid pid).1 =
      (redeemRoute db code bid t1).1 := by
  rcases redeemRoute_success_inv hfirst with
    ⟨row, b, hfind, hst, hexp1, hbiz, hbid, hcne, hbne, hv, hdb1⟩
  rw [hdb1]
  have hcb : ¬(code = "" ∨ bid = "") := by
    simp [hcne, hbne]
  have hfind1 := @verifyVoucherByCode_markUsed db code row row.id t1 hfind
  have hvv1 : verifyVoucherByCode
      { db with vouchers := db.vouchers.map (markUsed row.id t1) } code = some v := by
    rw [verifyVoucherByCode_eq, hfind1]
    rw [Option.map_some']
    rw [voucherView_ignores_vouchers]
    rw [voucherView_markUsed_active rfl hst]
    rw [hv]
  have hvexp : v.expiresAt = row.expiresAt := by
    rw [hv]
    rfl
  have hvst : v.status = "used" := by
    rw [hv]
  have hvbiz : v.business = some b := by
    rw [hv]
    exact hbiz
  have hvne : v.status ≠ "active" := by
    rw [hvst]
    decide
  have hvnu : ¬ v.status ≠ "used" := by
    simp [hvst]
  have hbeq : ¬ b.id ≠ bid := by
    simp [hbid]
  refine ⟨?_, ?_, ?_, ?_, ?_, ?_⟩
  · intro hlt
    simp [redeemRoute, hcb, hvv1, hvbiz, hbeq, hlt]
  · intro hnlt
    simp [redeemRoute, hcb, hvv1, hvbiz, hbeq, hnlt, hvne]
  · apply redeemRoute_fst_of_not_success
    by_cases hlt : v.expiresAt < t2
    · simp [redeemRoute, hcb, hvv1, hvbiz, hbeq, hlt, RedeemResponse.isSuccess]
    · simp [redeemRoute, hcb, hvv1, hvbiz, hbeq, hlt, hvne, RedeemResponse.isSuccess]
  · intro hnlt
    have hver : (verifyRoute
        { db with vouchers := db.vouchers.map (markUsed row.id t1) } code t2).2 =
        .classified false v "Voucher has already been used" := by
      simp [verifyRoute, hcne, hvv1, hnlt, hvst]
    simp [handleAutoRedeemVoucher, htrim, hver]
  · intro hlt
    have hver : (verifyRoute
        { db with vouchers := db.vouchers.map (markUsed row.id t1) } code t2).2 =
        .classified false v "Voucher is expired" := by
      simp [verifyRoute, hcne, hvv1, hlt]
    simp [handleAutoRedeemVoucher, htrim, hver]
  · by_cases hlt : v.expiresAt < t2
    · have hver : (verifyRoute
          { db with vouchers := db.vouchers.map (markUsed row.id t1) } code t2).2 =
          .classified false v "Voucher is expired" := by
        simp [verifyRoute, hcne, hvv1, hlt]
      simp [handleAutoRedeemVoucher, htrim, hver]
    · have hver : (verifyRoute
          { db with vouchers := db.vouchers.map (markUsed row.id t1) } code t2).2 =
          .classified false v "Voucher has already been used" := by
        simp [verifyRoute, hcne, hvv1, hlt, hvst]
      simp [handleAutoRedeemVoucher, htrim, hver]

/-- Witness for C5 as amended: on the sample database the first redeem
succeeds; the immediate unexpired re-submission yields 400 "Voucher is
not active" on the endpoint, the scanner flow surfaces "Voucher has
already been used", and neither changes the database. -/
theorem redeem_resubmit_rejected_witness :
    (redeemRoute (redeemRoute sampleDb "DS-1700000000000-AB12CD" "b1" 1500).1
      "DS-1700000000000-AB12CD" "b1" 1600).2 = .notActive ∧
    (handleAutoRedeemVoucher (redeemRoute sampleDb "DS-1700000000000-AB12CD" "b1" 1500).1
      "DS-1700000000000-AB12CD" "b1" 1600 "n2" "p2").2 =
      .invalidVoucher "Voucher has already been used" ∧
    (handleAutoRedeemVoucher (redeemRoute sampleDb "DS-1700000000000-AB12CD" "b1" 1500).1
      "DS-1700000000000-AB12CD" "b1" 1600 "n2" "p2").1 =
      (redeemRoute sampleDb "DS-1700000000000-AB12CD" "b1" 1500).1 := by
  have h := redeem_resubmit_rejected sampleDb "DS-1700000000000-AB12CD" "b1" 1500 1600
    "n2" "p2"
    { voucherView sampleDb sampleVoucher with status := "used", usedAt := some 1500 }
    (by decide) (by decide)
  exact ⟨h.2.1 (by decide), h.2.2.2.1 (by decide), h.2.2.2.2.2⟩

theorem verifyRoute_valid_inv {db : DB} {code : String} {t : Nat}
    {view : VoucherView} {msg : String}
    (h : (verifyRoute db code t).2 = .classified true view msg) :
    code ≠ "" ∧ verifyVoucherByCode db code = some view ∧
    ¬ view.expiresAt < t ∧ view.status = "active" := by
  by_cases hc : code = ""
  · simp [verifyRoute, hc] at h
  · cases hfind : verifyVoucherByCode db code with
    | none => simp [verifyRoute, hc, hfind] at h
    | some vv =>
      by_cases h1 : vv.expiresAt < t
      · simp [verifyRoute, hc, hfind, h1] at h
      · by_cases h2 : vv.status = "used"
        · simp [verifyRoute, hc, hfind, h1, h2] at h
        · by_cases h3 : vv.status ≠ "active"
          · simp [verifyRoute, hc, hfind, h1, h2, h3] at h
          · have hvv : vv = view := by
              have hpair : vv = view ∧ "Voucher is valid and ready to use" = msg := by
                simpa [verifyRoute, hc, hfind, h1, h2, h3] using h
              exact hpair.1
            refine ⟨hc, congrArg some hvv, ?_, ?_⟩
            · rw [← hvv]
              exact h1
            · rw [← hvv]
              simpa using h3

theorem sendRedemptionNotification_eq {db : DB} {v : VoucherView} {nid : String}
    {u : UserView} {d : DealView} {b : BusinessView}
    (hu : v.user = some u) (hd : v.deal = some d) (hb : v.business = some b) :
    sendRedemptionNotification db v nid =
      { db with notifications :=
          db.notifications ++ [redemptionNotificationRow nid u.id d.title b.name] } := by
  unfold sendRedemptionNotification
  rw [hu, hd, hb]
  rfl

theorem processBusinessPayment_eq {db : DB} {v : VoucherView}
    {bid pid : String} {t : Nat} {d : DealView} (hd : v.deal = some d) :
    processBusinessPayment db v bid pid t =
      { db with payments :=
          (db.payments ++ [pendingRedemptionPayment bid v.id d pid t]).map (completeIfId pid) } := by
  unfold processBusinessPayment
  rw [hd]
  rfl

theorem user_join_of_fk {db : DB} {row : Voucher}
    (hmem : row ∈ db.vouchers)
    (hfk : ∀ w ∈ db.vouchers, ∃ u ∈ db.users, u.id = w.userId) :
    ∃ u0, db.users.find? (fun x => x.id == row.userId) = some u0 ∧
      u0.id = row.userId := by
  rcases hfk row hmem with ⟨u, hum, huid⟩
  have hsome : (db.users.find? (fun x => x.id == row.userId)).isSome :=
    List.find?_isSome.mpr ⟨u, hum, by simp [huid]⟩
  rcases Option.isSome_iff_exists.mp hsome with ⟨u0, hu0⟩
  refine ⟨u0, hu0, ?_⟩
  simpa using List.find?_some hu0

theorem redeemRoute_notifications_payments (db : DB) (c b : String) (t : Nat) :
    (redeemRoute db c b t).1.notifications = db.notifications ∧
    (redeemRoute db c b t).1.payments = db.payments := by
  cases hr : (redeemRoute db c b t).2 with
  | success v =>
    rcases redeemRoute_success_inv hr with
      ⟨row, b0, _, _, _, _, _, _, _, _, hfst⟩
    rw [hfst]
    exact ⟨rfl, rfl⟩
  | missingFields =>
    rw [redeemRoute_fst_of_not_success (by rw [hr]; rfl)]
    exact ⟨rfl, rfl⟩
  | notFound =>
    rw [redeemRoute_fst_of_not_success (by rw [hr]; rfl)]
    exact ⟨rfl, rfl⟩
  | wrongBusiness nm =>
    rw [redeemRoute_fst_of_not_success (by rw [hr]; rfl)]
    exact ⟨rfl, rfl⟩
  | joinFault =>
    rw [redeemRoute_fst_of_not_success (by rw [hr]; rfl)]
    exact ⟨rfl, rfl⟩
  | expired =>
    rw [redeemRoute_fst_of_not_success (by rw [hr]; rfl)]
    exact ⟨rfl, rfl⟩
  | notActive =>
    rw [redeemRoute_fst_of_not_success (by rw [hr]; rfl)]
    exact ⟨rfl, rfl⟩
  | redeemFailed =>
    rw [redeemRoute_fst_of_not_success (by rw [hr]; rfl)]
    exact ⟨rfl, rfl⟩

/-- Counterexample for C4: a successful redemption completed through
POST /api/business/vouchers/redeem alone - here via the manual redeem
button handleRedeemVoucher, which posts to the endpoint and fires no
side-effect requests - flips the voucher to used yet creates no
Notification row and no BusinessPayment row, refuting the claim for
every successful redemption through the endpoint. -/
theorem redeem_endpoint_creates_no_rows_counterexample :
    (handleRedeemVoucher sampleDb "DS-1700000000000-AB12CD" "b1" 1500).2 = true ∧
    (∃ w ∈ (handleRedeemVoucher sampleDb "DS-1700000000000-AB12CD" "b1" 1500).1.vouchers,
      w.status = "used" ∧ w.usedAt = some 1500) ∧
    (handleRedeemVoucher sampleDb "DS-1700000000000-AB12CD" "b1" 1500).1.notifications = [] ∧
    (handleRedeemVoucher sampleDb "DS-1700000000000-AB12CD" "b1" 1500).1.payments = [] := by
  exact ⟨by decide, by decide, by decide, by decide⟩

/-- Claim C4 as amended: the notification and payment rows come from the
scanner auto-redeem flow, not from the endpoint - when a run of that flow
reports success, the found voucher row is stored as used with usedAt
stamped, a notification row of type voucher_redeemed exists for the
voucher's owning user whose message names the redeemed deal and its
business, and a completed BusinessPayment row exists for the redeeming
business over the deal's discounted price; a redemption completed through
the endpoint alone, as by the manual redeem button or a direct POST,
performs only the voucher transition and never touches the notifications
or payments tables. The foreign-key hypothesis states what the schema
enforces: every voucher's userId references a stored user. -/
theorem flow_redeemed_effects (db : DB) (code bid : String) (t : Nat)
    (nid pid : String)
    (hfk : ∀ w ∈ db.vouchers, ∃ u ∈ db.users, u.id = w.userId)
    (hred : (handleAutoRedeemVoucher db code bid t nid pid).2 = .redeemed) :
    (∀ db2 : DB, ∀ c2 b2 : String, ∀ t2 : Nat,
      (handleRedeemVoucher db2 c2 b2 t2).1.notifications = db2.notifications ∧
      (handleRedeemVoucher db2 c2 b2 t2).1.payments = db2.payments) ∧
    ∃ row dRow,
      db.vouchers.find? (fun w => w.code == jsTrim code) = some row ∧
      db.deals.find? (fun x => x.id == row.dealId) = some dRow ∧
      { row with status := "used", usedAt := some t } ∈
        (handleAutoRedeemVoucher db code bid t nid pid).1.vouchers ∧
      (∃ n ∈ (handleAutoRedeemVoucher db code bid t nid pid).1.notifications,
        n.userId = row.userId ∧ n.type = "voucher_redeemed" ∧
        n.title = "Voucher Ingewisseld ✅" ∧
        ∃ b0, db.businesses.find? (fun x => x.id == dRow.businessId) = some b0 ∧
          n.message = redemptionNotificationMessage dRow.title b0.name) ∧
      (∃ p ∈ (handleAutoRedeemVoucher db code bid t nid pid).1.payments,
        p.businessId = bid ∧ p.voucherId = row.id ∧
        p.amount = dRow.discountedPrice ∧ p.status = "completed") := by
  refine ⟨fun db2 c2 b2 t2 =>
    redeemRoute_notifications_payments db2 (jsTrim c2) b2 t2, ?_⟩
  cases hver : (verifyRoute db (jsTrim code) t).2 with
  | missingCode => simp [handleAutoRedeemVoucher, hver] at hred
  | notFound => simp [handleAutoRedeemVoucher, hver] at hred
  | classified val view msg =>
    cases val with
    | false => simp [handleAutoRedeemVoucher, hver] at hred
    | true =>
      cases hvb : view.business with
      | none => simp [handleAutoRedeemVoucher, hver, hvb] at hred
      | some biz =>
        by_cases hbb : biz.id = bid
        · rcases hrr : redeemRoute db (jsTrim code) bid t with ⟨db1, resp⟩
          cases resp with
          | success v =>
            -- invert the successful verification and redemption
            rcases verifyRoute_valid_inv hver with ⟨hcne, hfindview, hnexp, hstat⟩
            have hsucc : (redeemRoute db (jsTrim code) bid t).2 = .success v := by
              rw [hrr]
            rcases redeemRoute_success_inv hsucc with
              ⟨row, b, hfind, hst, _, _, _, _, _, _, hdb1eq⟩
            have hdb1 : db1 = { db with vouchers := db.vouchers.map (markUsed row.id t) } := by
              rw [hrr] at hdb1eq
              exact hdb1eq
            have hviewrow : view = voucherView db row := by
              rw [verifyVoucherByCode_eq, hfind] at hfindview
              exact ((Option.some.injEq _ _).mp hfindview).symm
            have hrowmem : row ∈ db.vouchers := List.mem_of_find?_eq_some hfind
            -- the deal join is present because the business join is
            cases hd : db.deals.find? (fun x => x.id == row.dealId) with
            | none =>
              rw [hviewrow, voucherView_business, hd] at hvb
              simp at hvb
            | some dRow =>
              have hdview : view.deal = some
                  { id := dRow.id, title := dRow.title, descr := dRow.descr,
                    originalPrice := dRow.originalPrice,
                    discountedPrice := dRow.discountedPrice,
                    discountPercentage := dRow.discountPercentage } := by
                rw [hviewrow, voucherView_deal, hd]
                rfl
              have hvb2 : view.business = some biz := hvb
              rw [hviewrow, voucherView_business, hd] at hvb2
              rcases Option.map_eq_some'.mp (by simpa using hvb2) with ⟨b0, hb0, hbiz0⟩
              rcases user_join_of_fk hrowmem hfk with ⟨u0, hu0, hu0id⟩
              have huview : view.user = some { id := u0.id, email := u0.email } := by
                rw [hviewrow, voucherView_user, hu0]
                rfl
              have hvbview : view.business = some
                  { id := b0.id, name := b0.name, address := b0.address,
                    city := b0.city } := by
                rw [hvb]
                rw [← hbiz0]
              -- the final flow state
              have hflow1 : (handleAutoRedeemVoucher db code bid t nid pid).1 =
                  processBusinessPayment (sendRedemptionNotification db1 view nid)
                    view bid pid t := by
                simp [handleAutoRedeemVoucher, hver, hvb, hbb, hrr]
              have hdb2 := @sendRedemptionNotification_eq db1 view nid _ _ _
                huview hdview hvbview
              have hdb3 := @processBusinessPayment_eq
                (sendRedemptionNotification db1 view nid) view bid pid t _ hdview
              refine ⟨row, dRow, hfind, hd, ?_, ?_, ?_⟩
              · -- the used voucher row
                rw [hflow1, hdb3, hdb2, hdb1]
                show { row with status := "used", usedAt := some t } ∈
                  db.vouchers.map (markUsed row.id t)
                rw [← markUsed_of_active rfl hst]
                exact List.mem_map_of_mem _ hrowmem
              · -- the notification row
                rw [hflow1, hdb3, hdb2, hdb1]
                refine ⟨redemptionNotificationRow nid u0.id dRow.title b0.name, ?_, ?_, rfl, rfl, b0, hb0, rfl⟩
                · show _ ∈ db.notifications ++ [_]
                  exact List.mem_append_right _ (List.mem_singleton_self _)
                · show u0.id = row.userId
                  exact hu0id
              · -- the payment row
                rw [hflow1, hdb3, hdb2, hdb1]
                refine ⟨completeIfId pid (pendingRedemptionPayment bid view.id
                  { id := dRow.id, title := dRow.title, descr := dRow.descr,
                    originalPrice := dRow.originalPrice,
                    discountedPrice := dRow.discountedPrice,
                    discountPercentage := dRow.discountPercentage } pid t), ?_, ?_, ?_, ?_, ?_⟩
                · exact List.mem_map_of_mem _
                    (List.mem_append_right _ (List.mem_singleton_self _))
                · show (completeIfId pid _).businessId = bid
                  simp [completeIfId, pendingRedemptionPayment]
                · show (completeIfId pid _).voucherId = row.id
                  have hvid : view.id = row.id := by
                    rw [hviewrow]
                    exact voucherView_id db row
                  simp [completeIfId, pendingRedemptionPayment, hvid]
                · show (completeIfId pid _).amount = dRow.discountedPrice
                  simp [completeIfId, pendingRedemptionPayment]
                · show (completeIfId pid _).status = "completed"
                  simp [completeIfId, pendingRedemptionPayment]
          | missingFields => simp [handleAutoRedeemVoucher, hver, hvb, hbb, hrr] at hred
          | notFound => simp [handleAutoRedeemVoucher, hver, hvb, hbb, hrr] at hred
          | wrongBusiness nm => simp [handleAutoRedeemVoucher, hver, hvb, hbb, hrr] at hred
          | joinFault => simp [handleAutoRedeemVoucher, hver, hvb, hbb, hrr] at hred
          | expired => simp [handleAutoRedeemVoucher, hver, hvb, hbb, hrr] at hred
          | notActive => simp [handleAutoRedeemVoucher, hver, hvb, hbb, hrr] at hred
          | redeemFailed => simp [handleAutoRedeemVoucher, hver, hvb, hbb, hrr] at hred
        · simp [handleAutoRedeemVoucher, hver, hvb, hbb] at hred

/-- Witness for C4 on the sample database: redeeming the stored code
through the scanner flow succeeds and produces the used row, the
notification and the completed payment. -/
theorem flow_redeemed_effects_witness :
    (∀ w ∈ sampleDb.vouchers, ∃ u ∈ sampleDb.users, u.id = w.userId) ∧
    (handleAutoRedeemVoucher sampleDb "DS-1700000000000-AB12CD" "b1" 1500 "n1" "p1").2 =
      .redeemed ∧
    (∃ row dRow,
      sampleDb.vouchers.find? (fun w => w.code == jsTrim "DS-1700000000000-AB12CD") =
        some row ∧
      sampleDb.deals.find? (fun x => x.id == row.dealId) = some dRow ∧
      { row with status := "used", usedAt := some 1500 } ∈
        (handleAutoRedeemVoucher sampleDb "DS-1700000000000-AB12CD" "b1" 1500 "n1" "p1").1.vouchers ∧
      (∃ n ∈ (handleAutoRedeemVoucher sampleDb "DS-1700000000000-AB12CD" "b1" 1500 "n1" "p1").1.notifications,
        n.userId = row.userId ∧ n.type = "voucher_redeemed" ∧
        n.title = "Voucher Ingewisseld ✅" ∧
        ∃ b0, sampleDb.businesses.find? (fun x => x.id == dRow.businessId) = some b0 ∧
          n.message = redemptionNotificationMessage dRow.title b0.name) ∧
      (∃ p ∈ (handleAutoRedeemVoucher sampleDb "DS-1700000000000-AB12CD" "b1" 1500 "n1" "p1").1.payments,
        p.businessId = "b1" ∧ p.voucherId = row.id ∧
        p.amount = dRow.discountedPrice ∧ p.status = "completed")) ∧
    (handleRedeemVoucher sampleDb "DS-1700000000000-AB12CD" "b1" 1500).1.notifications =
      sampleDb.notifications :=
  ⟨by decide, by decide,
    (flow_redeemed_effects sampleDb "DS-1700000000000-AB12CD" "b1" 1500 "n1" "p1"
      (by decide) (by decide)).2,
    ((flow_redeemed_effects sampleDb "DS-1700000000000-AB12CD" "b1" 1500 "n1" "p1"
      (by decide) (by decide)).1 sampleDb "DS-1700000000000-AB12CD" "b1" 1500).1⟩

theorem sendRedemptionNotification_payments (db : DB) (v : VoucherView) (nid : String) :
    (sendRedemptionNotification db v nid).payments = db.payments := by
  unfold sendRedemptionNotification
  rcases v.user with _ | u <;> rcases v.deal with _ | d <;>
    rcases v.business with _ | b <;> rfl

theorem sendRedemptionNotification_vouchers (db : DB) (v : VoucherView) (nid : String) :
    (sendRedemptionNotification db v nid).vouchers = db.vouchers := by
  unfold sendRedemptionNotification
  rcases v.user with _ | u <;> rcases v.deal with _ | d <;>
    rcases v.business with _ | b <;> rfl

theorem pcInv_congr {da dbb : DB} {vid : String}
    (hp : da.payments = dbb.payments) (hv : da.vouchers = dbb.vouchers)
    (h : pcInv dbb vid) : pcInv da vid := by
  simp only [pcInv, paymentCount, hasActiveVoucher, hp, hv]
  exact h

theorem hasActive_markUsed_imp {db : DB} {rid vid : String} {t : Nat}
    (h : hasActiveVoucher
      { db with vouchers := db.vouchers.map (markUsed rid t) } vid = true) :
    hasActiveVoucher db vid = true := by
  rcases List.any_eq_true.mp h with ⟨w, hw, hpred⟩
  rcases List.mem_map.mp hw with ⟨v, hv, rfl⟩
  by_cases hc : v.id = rid ∧ v.status = "active"
  · rw [markUsed_of_active hc.1 hc.2] at hpred
    rw [isActiveWithId_eq_true] at hpred
    have : "used" = "active" := hpred.2
    exact absurd this (by decide)
  · rw [markUsed_of_not hc] at hpred
    exact List.any_eq_true.mpr ⟨v, hv, hpred⟩

theorem hasActive_markUsed_self (db : DB) (rid : String) (t : Nat) :
    hasActiveVoucher
      { db with vouchers := db.vouchers.map (markUsed rid t) } rid = false := by
  refine List.any_eq_false.mpr ?_
  intro w hw
  rw [isActiveWithId_eq_true]
  exact no_active_after_markUsed w hw

theorem pcInv_markUsed {db : DB} {vid rid : String} {t : Nat}
    (h : pcInv db vid) :
    pcInv { db with vouchers := db.vouchers.map (markUsed rid t) } vid := by
  have hpc : paymentCount
      { db with vouchers := db.vouchers.map (markUsed rid t) } vid =
      paymentCount db vid := rfl
  constructor
  · rw [hpc]
    exact h.1
  · intro hact
    rw [hpc]
    exact h.2 (hasActive_markUsed_imp hact)

theorem pcInv_redeemRoute (db : DB) (vid c b : String) (t : Nat)
    (h : pcInv db vid) : pcInv (redeemRoute db c b t).1 vid := by
  cases hr : (redeemRoute db c b t).2 with
  | success v =>
    rcases redeemRoute_success_inv hr with
      ⟨row, b0, _, _, _, _, _, _, _, _, hfst⟩
    rw [hfst]
    exact pcInv_markUsed h
  | missingFields =>
    rw [redeemRoute_fst_of_not_success (by rw [hr]; rfl)]
    exact h
  | notFound =>
    rw [redeemRoute_fst_of_not_success (by rw [hr]; rfl)]
    exact h
  | wrongBusiness nm =>
    rw [redeemRoute_fst_of_not_success (by rw [hr]; rfl)]
    exact h
  | joinFault =>
    rw [redeemRoute_fst_of_not_success (by rw [hr]; rfl)]
    exact h
  | expired =>
    rw [redeemRoute_fst_of_not_success (by rw [hr]; rfl)]
    exact h
  | notActive =>
    rw [redeemRoute_fst_of_not_success (by rw [hr]; rfl)]
    exact h
  | redeemFailed =>
    rw [redeemRoute_fst_of_not_success (by rw [hr]; rfl)]
    exact h

theorem patchVoucherUseRoute_fst (db : DB) (vid : String) (t : Nat) :
    (patchVoucherUseRoute db vid t).1 =
      { db with vouchers := db.vouchers.map (markUsed vid t) } := by
  have h1 : (patchVoucherUseRoute db vid t).1 = (useVoucher db vid t).1 := by
    unfold patchVoucherUseRoute
    cases hok : (useVoucher db vid t).2 <;> simp [hok]
  rw [h1]
  rfl

theorem length_filter_map_completeIfId (l : List BusinessPayment) (pid vid : String) :
    ((l.map (completeIfId pid)).filter (fun p => p.voucherId == vid)).length =
      (l.filter (fun p => p.voucherId == vid)).length := by
  induction l with
  | nil => rfl
  | cons a l ih =>
    have hq : (completeIfId pid a).voucherId = a.voucherId := by
      unfold completeIfId
      split <;> rfl
    simp only [List.map_cons, List.filter_cons, hq]
    cases hqa : (a.voucherId == vid) with
    | true => simp [ih]
    | false => simp [ih]

theorem hasActiveVoucher_congr {da dbb : DB} (hv : da.vouchers = dbb.vouchers)
    (vid : String) : hasActiveVoucher da vid = hasActiveVoucher dbb vid := by
  simp only [hasActiveVoucher, hv]

theorem pcInv_payment_step {db2 : DB} {vid bid vvid pid : String} {d0 : DealView}
    {t : Nat} (h2 : pcInv db2 vid)
    (hzero : vvid = vid → paymentCount db2 vid = 0)
    (hnoact : vvid = vid → hasActiveVoucher db2 vid = false) :
    pcInv { db2 with payments := (db2.payments ++ [pendingRedemptionPayment bid vvid d0 pid t]).map (completeIfId pid) } vid := by
  have hvch : ({ db2 with payments := (db2.payments ++ [pendingRedemptionPayment bid vvid d0 pid t]).map (completeIfId pid) } : DB).vouchers = db2.vouchers := rfl
  have hpcstar : paymentCount { db2 with payments := (db2.payments ++ [pendingRedemptionPayment bid vvid d0 pid t]).map (completeIfId pid) } vid =
      paymentCount db2 vid +
      ([pendingRedemptionPayment bid vvid d0 pid t].filter (fun p => p.voucherId == vid)).length := by
    show (((db2.payments ++ [pendingRedemptionPayment bid vvid d0 pid t]).map (completeIfId pid)).filter (fun p => p.voucherId == vid)).length = _
    rw [length_filter_map_completeIfId, List.filter_append, List.length_append]
    rfl
  by_cases hvv : vvid = vid
  · have hfil : ([pendingRedemptionPayment bid vvid d0 pid t].filter
        (fun p => p.voucherId == vid)).length = 1 := by
      have hq : (pendingRedemptionPayment bid vvid d0 pid t).voucherId = vid := hvv
      simp [List.filter, hq]
    constructor
    · rw [hpcstar, hfil, hzero hvv]
    · intro hact
      rw [hasActiveVoucher_congr hvch vid, hnoact hvv] at hact
      exact absurd hact (by decide)
  · have hfil : ([pendingRedemptionPayment bid vvid d0 pid t].filter
        (fun p => p.voucherId == vid)).length = 0 := by
      have hq : ((pendingRedemptionPayment bid vvid d0 pid t).voucherId == vid) = false := by
        simp [pendingRedemptionPayment, hvv]
      simp [List.filter, hq]
    constructor
    · rw [hpcstar, hfil]
      simpa using h2.1
    · intro hact
      rw [hpcstar, hfil]
      rw [hasActiveVoucher_congr hvch vid] at hact
      rw [h2.2 hact]

theorem pcInv_flow (db : DB) (vid c b : String) (t : Nat) (nid pid : String)
    (h : pcInv db vid) :
    pcInv (handleAutoRedeemVoucher db c b t nid pid).1 vid := by
  cases hver : (verifyRoute db (jsTrim c) t).2 with
  | missingCode =>
    have hfst : (handleAutoRedeemVoucher db c b t nid pid).1 = db := by
      simp [handleAutoRedeemVoucher, hver]
    rw [hfst]
    exact h
  | notFound =>
    have hfst : (handleAutoRedeemVoucher db c b t nid pid).1 = db := by
      simp [handleAutoRedeemVoucher, hver]
    rw [hfst]
    exact h
  | classified val view msg =>
    cases val with
    | false =>
      have hfst : (handleAutoRedeemVoucher db c b t nid pid).1 = db := by
        simp [handleAutoRedeemVoucher, hver]
      rw [hfst]
      exact h
    | true =>
      cases hvb : view.business with
      | none =>
        have hfst : (handleAutoRedeemVoucher db c b t nid pid).1 = db := by
          simp [handleAutoRedeemVoucher, hver, hvb]
        rw [hfst]
        exact h
      | some biz =>
        by_cases hbb : biz.id = b
        · rcases hrr : redeemRoute db (jsTrim c) b t with ⟨db1, resp⟩
          have hdb1 : db1 = (redeemRoute db (jsTrim c) b t).1 := by
            rw [hrr]
          have hnonsuccess : ∀ r2 : RedeemResponse, resp = r2 →
              (handleAutoRedeemVoucher db c b t nid pid).1 = db1 →
              pcInv (handleAutoRedeemVoucher db c b t nid pid).1 vid := by
            intro r2 _ hflow1
            rw [hflow1, hdb1]
            exact pcInv_redeemRoute db vid (jsTrim c) b t h
          cases resp with
          | missingFields =>
            exact hnonsuccess _ rfl (by simp [handleAutoRedeemVoucher, hver, hvb, hbb, hrr])
          | notFound =>
            exact hnonsuccess _ rfl (by simp [handleAutoRedeemVoucher, hver, hvb, hbb, hrr])
          | wrongBusiness nm =>
            exact hnonsuccess _ rfl (by simp [handleAutoRedeemVoucher, hver, hvb, hbb, hrr])
          | joinFault =>
            exact hnonsuccess _ rfl (by simp [handleAutoRedeemVoucher, hver, hvb, hbb, hrr])
          | expired =>
            exact hnonsuccess _ rfl (by simp [handleAutoRedeemVoucher, hver, hvb, hbb, hrr])
          | notActive =>
            exact hnonsuccess _ rfl (by simp [handleAutoRedeemVoucher, hver, hvb, hbb, hrr])
          | redeemFailed =>
            exact hnonsuccess _ rfl (by simp [handleAutoRedeemVoucher, hver, hvb, hbb, hrr])
          | success v =>
            have hflow1 : (handleAutoRedeemVoucher db c b t nid pid).1 =
                processBusinessPayment (sendRedemptionNotification db1 view nid)
                  view b pid t := by
              simp [handleAutoRedeemVoucher, hver, hvb, hbb, hrr]
            rcases verifyRoute_valid_inv hver with ⟨hcne, hfindview, hnexp, hstat⟩
            have hsucc : (redeemRoute db (jsTrim c) b t).2 = .success v := by
              rw [hrr]
            rcases redeemRoute_success_inv hsucc with
              ⟨row, b0, hfind, hst, _, _, _, _, _, _, hfst⟩
            have hdb1e : db1 =
                { db with vouchers := db.vouchers.map (markUsed row.id t) } := by
              rw [hdb1, hfst]
            have hviewrow : view = voucherView db row := by
              rw [verifyVoucherByCode_eq, hfind] at hfindview
              exact ((Option.some.injEq _ _).mp hfindview).symm
            have hrowmem : row ∈ db.vouchers := List.mem_of_find?_eq_some hfind
            have hviewid : view.id = row.id := by
              rw [hviewrow]
              exact voucherView_id db row
            have hp2 : (sendRedemptionNotification db1 view nid).payments =
                db1.payments := sendRedemptionNotification_payments db1 view nid
            have hv2 : (sendRedemptionNotification db1 view nid).vouchers =
                db1.vouchers := sendRedemptionNotification_vouchers db1 view nid
            have hinv1 : pcInv db1 vid := by
              rw [hdb1e]
              exact pcInv_markUsed h
            have hinv2 : pcInv (sendRedemptionNotification db1 view nid) vid :=
              pcInv_congr hp2 hv2 hinv1
            rw [hflow1]
            cases hdv : view.deal with
            | none =>
              have hid3 : processBusinessPayment
                  (sendRedemptionNotification db1 view nid) view b pid t =
                  sendRedemptionNotification db1 view nid := by
                unfold processBusinessPayment
                rw [hdv]
              rw [hid3]
              exact hinv2
            | some d0 =>
              rw [@processBusinessPayment_eq
                (sendRedemptionNotification db1 view nid) view b pid t _ hdv]
              apply pcInv_payment_step hinv2
              · intro hvid
                have hz : paymentCount db vid = 0 := by
                  apply h.2
                  refine List.any_eq_true.mpr ⟨row, hrowmem, ?_⟩
                  rw [isActiveWithId_eq_true]
                  exact ⟨by rw [← hviewid]; exact hvid, hst⟩
                have hz1 : paymentCount db1 vid = 0 := by
                  rw [hdb1e]
                  exact hz
                simp only [paymentCount, hp2]
                exact hz1
              · intro hvid
                have hrowid : row.id = vid := by
                  rw [← hviewid]
                  exact hvid
                rw [hasActiveVoucher_congr hv2 vid]
                have : hasActiveVoucher db1 vid =
                    hasActiveVoucher { db with vouchers := db.vouchers.map (markUsed row.id t) } vid := by
                  rw [hdb1e]
                rw [this, hrowid]
                exact hasActive_markUsed_self db vid t
        · have hfst : (handleAutoRedeemVoucher db c b t nid pid).1 = db := by
            simp [handleAutoRedeemVoucher, hver, hvb, hbb]
          rw [hfst]
          exact h

/-- Claim C9: starting from a database in which no stored payment
references a given voucher, any sequence of redemption-flow operations -
scanner auto-redeem runs, direct redeem POSTs, direct PATCH uses and
verify POSTs, with arbitrary arguments - leaves at most one BusinessPayment
row referencing that voucher: the only payment-creating step is guarded by
the verification and the compare-and-set that deactivate the row. -/
theorem at_most_one_payment_per_voucher (db : DB) (vid : String)
    (ops : List RedeemOp) (h0 : paymentCount db vid = 0) :
    paymentCount (applyOps db ops) vid ≤ 1 := by
  suffices hinv : ∀ ops2 : List RedeemOp, ∀ db2 : DB,
      pcInv db2 vid → pcInv (applyOps db2 ops2) vid by
    exact (hinv ops db ⟨by omega, fun _ => h0⟩).1
  intro ops2
  induction ops2 with
  | nil =>
    intro db2 h
    exact h
  | cons op rest ih =>
    intro db2 h
    show pcInv (applyOps (applyOp db2 op) rest) vid
    apply ih
    cases op with
    | scanFlow c b t nid pid => exact pcInv_flow db2 vid c b t nid pid h
    | redeemPost c b t => exact pcInv_redeemRoute db2 vid c b t h
    | patchUse v t =>
      show pcInv (patchVoucherUseRoute db2 v t).1 vid
      rw [patchVoucherUseRoute_fst]
      exact pcInv_markUsed h
    | verifyPost c t =>
      show pcInv (verifyRoute db2 c t).1 vid
      rw [verifyRoute_fst]
      exact h

/-- Witness for C9: the sample database has no payment for v1; after two
scanner runs and a PATCH use on the same voucher at most one payment for
v1 exists. -/
theorem at_most_one_payment_per_voucher_witness :
    paymentCount sampleDb "v1" = 0 ∧
    paymentCount (applyOps sampleDb
      [RedeemOp.scanFlow "DS-1700000000000-AB12CD" "b1" 1500 "n1" "p1",
       RedeemOp.scanFlow "DS-1700000000000-AB12CD" "b1" 1600 "n2" "p2",
       RedeemOp.patchUse "v1" 1700]) "v1" ≤ 1 :=
  ⟨by decide, at_most_one_payment_per_voucher sampleDb "v1"
    [RedeemOp.scanFlow "DS-1700000000000-AB12CD" "b1" 1500 "n1" "p1",
     RedeemOp.scanFlow "DS-1700000000000-AB12CD" "b1" 1600 "n2" "p2",
     RedeemOp.patchUse "v1" 1700] (by decide)⟩

end DealSpot
